import Mathlib

/-!
Verification development for the NZTA deregistered-VIN ingest/sync service.

The definitions below are a shallow embedding of the Python sources under
src/app: pure data is translated to Lean structures, the BigQuery staging
table is a list of rows, and each repository / client / orchestrator
function is translated to a Lean function over explicit state.  External
effects (BigQuery query outcomes, FTP deletion outcomes, HTTP responses,
CSV decode outcomes) are supplied as explicit oracle values, so every
definition is executable.  Wall-clock timestamps (date_created,
date_modified) are not modelled: no claim under consideration depends on
their values, only on status and error_message transitions.
-/

namespace VinPipeline

/-- A decoded CSV row (src/app/csv_processor.py, class VehicleRecord). -/
structure VehicleRecord where
  make : String
  model : String
  vin : String
  dereg_date : String
  rego : String
deriving DecidableEq, Repr

/-- One row of the BigQuery staging table (schema built in
StageRepository.ensure_resources, src/app/stage_repository.py).
The two TIMESTAMP columns are omitted (see module comment). -/
structure StagedRow where
  id : String
  vin : String
  vehicle_make : String
  vehicle_model : String
  dereg_date : String
  reg_plate : String
  status : String
  source_filename : String
  error_message : Option String
deriving DecidableEq, Repr

/-- A staged entry handle returned by stage_records
(src/app/stage_repository.py, class StagedEntry). -/
structure StagedEntry where
  stage_id : String
  record : VehicleRecord
  source_filename : Option String
deriving DecidableEq, Repr

/-- Effect of StageRepository._update_status on one stored row: the UPDATE
statement's WHERE clause is `id = @id` alone, so a row is rewritten exactly
when its id matches, with no condition on its current status
(src/app/stage_repository.py lines 178-200). -/
def update_status_row (stage_id new_status : String) (err : Option String)
    (r : StagedRow) : StagedRow :=
  if r.id = stage_id then { r with status := new_status, error_message := err } else r

/-- StageRepository._update_status applied to the whole table. -/
def update_status (store : List StagedRow) (stage_id new_status : String)
    (err : Option String) : List StagedRow :=
  store.map (update_status_row stage_id new_status err)

/-- StageRepository.mark_pushed: _update_status(stage_id, "pushed", None). -/
def mark_pushed (store : List StagedRow) (stage_id : String) : List StagedRow :=
  update_status store stage_id "pushed" none

/-- StageRepository.record_error: _update_status(stage_id, "failed", message). -/
def record_error (store : List StagedRow) (stage_id message : String) : List StagedRow :=
  update_status store stage_id "failed" (some message)

/-- Effect of StageRepository.mark_failed_by_file on one stored row: the
UPDATE's WHERE clause is `source_filename = @file_name AND status = 'pending'`
(src/app/stage_repository.py lines 122-142). -/
def mark_failed_by_file_row (source_filename message : String) (r : StagedRow) : StagedRow :=
  if r.source_filename = source_filename ∧ r.status = "pending" then
    { r with status := "failed", error_message := some message }
  else r

/-- StageRepository.mark_failed_by_file applied to the whole table. -/
def mark_failed_by_file (store : List StagedRow) (source_filename message : String) :
    List StagedRow :=
  store.map (mark_failed_by_file_row source_filename message)

/-- First row of the table whose id matches (the staging ids are uuid4
values, so in any real table at most one row matches). -/
def find_row (store : List StagedRow) (stage_id : String) : Option StagedRow :=
  store.find? (fun r => r.id == stage_id)

/-- Concrete row used to exhibit behaviour of the point mutations on a row
that is already pushed. -/
def c1_pushed_row : StagedRow :=
  { id := "stage-1", vin := "VIN00000000000001", vehicle_make := "TOYOTA",
    vehicle_model := "COROLLA", dereg_date := "2024-01-02", reg_plate := "ABC123",
    status := "pushed", source_filename := "vins.csv", error_message := none }

/-- Bounded retry count for streaming-buffer conflicts
(StageRepository.STREAMING_BUFFER_RETRIES). -/
def STREAMING_BUFFER_RETRIES : Nat := 12

/-- Fixed delay between conflict retries, in seconds
(StageRepository.STREAMING_BUFFER_DELAY_SECONDS). -/
def STREAMING_BUFFER_DELAY_SECONDS : Nat := 15

/-- Substring test on character lists, used to embed Python's
`"streaming buffer" in message.lower()`. -/
def contains_sub (needle : List Char) : List Char → Bool
  | [] => needle.isEmpty
  | c :: rest => needle.isPrefixOf (c :: rest) || contains_sub needle rest

/-- The conflict test of StageRepository._run_update_query: the caught
BadRequest counts as a streaming-buffer conflict when its message is
non-empty and contains "streaming buffer" case-insensitively (the message
is lowercased character by character, as Python's str.lower does for the
ASCII text involved). -/
def is_streaming_conflict (message : String) : Bool :=
  contains_sub "streaming buffer".toList (message.toList.map Char.toLower)

/-- Outcome of one attempt of the UPDATE job inside
StageRepository._run_update_query: the job either succeeds, raises a
BadRequest carrying a message, or raises some other exception (which the
`except BadRequest` clause does not catch). -/
inductive QueryAttempt where
  | success
  | bad_request (message : String)
  | other_error (message : String)
deriving DecidableEq, Repr

/-- Observable result of _run_update_query: either the update applied on
some attempt (0-based index, having slept `slept` seconds in total), or an
exception was re-raised after `slept` seconds of retry delay. -/
inductive UpdateOutcome where
  | applied (attempt : Nat) (slept : Nat)
  | raised_bad_request (message : String) (slept : Nat)
  | raised_other (message : String) (slept : Nat)
deriving DecidableEq, Repr

/-- The retry loop of StageRepository._run_update_query (lines 202-232):
`attempts` starts at 0; a streaming-buffer BadRequest with
attempts < STREAMING_BUFFER_RETRIES increments the counter, sleeps
STREAMING_BUFFER_DELAY_SECONDS and retries; any other exception, and a
conflict after the budget, is re-raised.  The behaviour of the backend on
the i-th attempt is the oracle value `backend i`. -/
def run_update_aux (backend : Nat → QueryAttempt) (attempts slept : Nat) : UpdateOutcome :=
  match backend attempts with
  | .success => .applied attempts slept
  | .other_error m => .raised_other m slept
  | .bad_request m =>
    if h : is_streaming_conflict m ∧ attempts < STREAMING_BUFFER_RETRIES then
      run_update_aux backend (attempts + 1) (slept + STREAMING_BUFFER_DELAY_SECONDS)
    else .raised_bad_request m slept
termination_by STREAMING_BUFFER_RETRIES - attempts
decreasing_by
  have := h.2
  omega

/-- StageRepository._run_update_query. -/
def run_update_query (backend : Nat → QueryAttempt) : UpdateOutcome :=
  run_update_aux backend 0 0

/-- An attempt outcome that counts as a retryable conflict. -/
def conflict_attempt (a : QueryAttempt) : Prop :=
  ∃ m, a = QueryAttempt.bad_request m ∧ is_streaming_conflict m = true

/-- Concrete backend for the C3 witness: a streaming-buffer conflict on the
first attempt, success on the second. -/
def c3_backend : Nat → QueryAttempt :=
  fun i => if i = 0 then QueryAttempt.bad_request "row in streaming buffer" else .success

/-- An HTTP response as far as the CRM client observes it. -/
structure HttpResponse where
  status_code : Nat
deriving DecidableEq, Repr

/-- What one call of SugarCrmClient._request did: the response it returned
to its caller, how many HTTP requests it sent and how many times it called
authenticate(). -/
structure RequestTrace where
  response : HttpResponse
  requests_sent : Nat
  reauth_count : Nat
deriving DecidableEq, Repr

/-- SugarCrmClient._request (src/app/sugar_client.py lines 109-127): the
initial send yields `first`; if and only if that is a 401, authenticate()
is called once and the request re-sent once, yielding `after_reauth`,
which is returned whatever its status.  authenticate() itself is assumed
to succeed (its own failure would propagate as a token-endpoint error,
outside this claim). -/
def crm_request (first after_reauth : HttpResponse) : RequestTrace :=
  if first.status_code = 401 then
    { response := after_reauth, requests_sent := 2, reauth_count := 1 }
  else
    { response := first, requests_sent := 1, reauth_count := 0 }

/-- requests.Response.raise_for_status as the callers of _request use it:
a 4xx/5xx status becomes a raised HTTPError carrying the status. -/
def raise_for_status (r : HttpResponse) : Except Nat HttpResponse :=
  if 400 ≤ r.status_code then Except.error r.status_code else Except.ok r

/-- SugarCrmClient._format_date restricted to the string-valued dereg_date
that VehicleRecord carries: None or the empty string becomes None (the
JSON null), anything else is sent as the string itself. -/
def format_date (value : String) : Option String :=
  if value = "" then none else some value

/-- The CRM's reply to the update request, as update_vehicle reads it:
the transport status plus the decoded JSON body — `none` when the body is
not JSON, otherwise the echoed vehicle_status_c and latest_dereg_date_c
fields (each `none` when absent or null). -/
structure UpdateResponse where
  status_code : Nat
  body : Option (Option String × Option String)
deriving DecidableEq, Repr

/-- The vehicle status value update_vehicle writes and expects echoed. -/
def target_status : String := "Deregistered"

/-- SugarCrmClient.update_vehicle (src/app/sugar_client.py lines 71-99):
raise_for_status, then the JSON decode, then the echo check that both
vehicle_status_c and latest_dereg_date_c equal the intended values
(the Python error strings also interpolate the echoed values; the constant
prefix stands for them here). -/
def update_vehicle (record : VehicleRecord) (resp : UpdateResponse) : Except String Unit :=
  if 400 ≤ resp.status_code then Except.error "HTTPError" else
  match resp.body with
  | none => Except.error "SugarCRM update returned non-JSON payload"
  | some (actual_status, actual_date) =>
    if actual_status = some target_status ∧ actual_date = format_date record.dereg_date then
      Except.ok ()
    else
      Except.error "SugarCRM update did not persist expected values"

/-- Concrete record for the C8 witness. -/
def c8_record : VehicleRecord :=
  { make := "TOYOTA", model := "COROLLA", vin := "VIN00000000000002",
    dereg_date := "2024-01-02", rego := "ABC124" }

/-- Concrete echoing response for the C8 witness. -/
def c8_response : UpdateResponse :=
  { status_code := 200, body := some (some "Deregistered", some "2024-01-02") }

/-- Backend state seen by StageRepository.ensure_resources. -/
structure BqState where
  dataset_exists : Bool
  table_exists : Bool
deriving DecidableEq, Repr

/-- Create operations ensure_resources can issue. -/
inductive BqOp where
  | create_dataset
  | create_table
deriving DecidableEq, Repr

/-- StageRepository.ensure_resources (src/app/stage_repository.py lines
39-75): get_dataset, creating the dataset only on NotFound, then
get_table, creating the table only on NotFound.  Creation succeeds (the
invocation model is single-writer, spec section 5), so the function has no
exception path.  Returns the new backend state and the creates issued. -/
def ensure_resources (s : BqState) : BqState × List BqOp :=
  let ds :=
    if s.dataset_exists then (s, ([] : List BqOp))
    else ({ s with dataset_exists := true }, [BqOp.create_dataset])
  let ts :=
    if ds.1.table_exists then (ds.1, ([] : List BqOp))
    else ({ ds.1 with table_exists := true }, [BqOp.create_table])
  (ts.1, ds.2 ++ ts.2)

/-- What the per-file try/except of execute_ingest_pipeline appends to
processed_reports for one file (abstracting the fields of the report
dictionaries built in src/app/main.py lines 81-102). -/
structure IngestFileReport where
  source_filename : String
  status : String
deriving DecidableEq, Repr

/-- FtpDownloader.iter_downloads (src/app/ftp_client.py lines 52-59):
for each listed filename matching the pattern it yields the 2-tuple
(filename, downloaded local path).  A Python tuple is modelled as the list
of its components, so arity is observable. -/
def iter_downloads (files : List String) (destination_dir : String) : List (List String) :=
  files.map (fun fn => [fn, destination_dir ++ "/" ++ fn])

/-- Python's ValueError raised when a 2-tuple is unpacked into 3 names. -/
def unpack_value_error : String := "not enough values to unpack (expected 3, got 2)"

/-- Python tuple unpacking `filename, remote_file, local_path = item`:
succeeds only on a 3-component tuple (the error text is the one produced
for the 2-component tuples that actually occur here). -/
def unpack3 (t : List String) : Except String (String × String × String) :=
  match t with
  | [a, b, c] => Except.ok (a, b, c)
  | _ => Except.error unpack_value_error

/-- The per-file loop of execute_ingest_pipeline (src/app/main.py lines
73-102): the for-statement header unpacks each yielded item into
(filename, remote_file, local_path); the loop body's try/except converts
any per-file processing failure into an error report, but the unpacking
happens in the loop header, outside that try, so its failure propagates.
`handle` abstracts the report obtained for a successfully unpacked item. -/
def ingest_loop (handle : String → String → String → IngestFileReport) :
    List (List String) → List IngestFileReport → Except String (List IngestFileReport)
  | [], reports => Except.ok reports
  | item :: rest, reports =>
    match unpack3 item with
    | Except.error e => Except.error e
    | Except.ok (filename, remote_file, local_path) =>
      ingest_loop handle rest (reports ++ [handle filename remote_file local_path])

/-- execute_ingest_pipeline's traversal of the remote listing (the
surrounding setup and notification calls carry no decision relevant
here). -/
def execute_ingest_pipeline (handle : String → String → String → IngestFileReport)
    (files : List String) (destination_dir : String) :
    Except String (List IngestFileReport) :=
  ingest_loop handle (iter_downloads files destination_dir) []

/-- JSON body returned by the entrypoint: either the pipeline's summary or
the structured error object built in the except clause. -/
inductive TriggerBody (α : Type) where
  | summary (s : α)
  | error_summary (status_field error_text : String)
deriving DecidableEq, Repr

/-- An HTTP reply from the entrypoint: body plus status code. -/
structure TriggerReply (α : Type) where
  body : TriggerBody α
  http_code : Nat
deriving DecidableEq, Repr

/-- The POST branch of entrypoint (src/app/main.py lines 23-38): the
selected pipeline either returns a summary, jsonified with the implicit
200, or raises, in which case the except clause returns the structured
error body, explicitly with status 200. -/
def entrypoint_post {α : Type} (pipeline_result : Except String α) : TriggerReply α :=
  match pipeline_result with
  | Except.ok s => { body := TriggerBody.summary s, http_code := 200 }
  | Except.error e => { body := TriggerBody.error_summary "error" e, http_code := 200 }

/-- Concrete per-file handler for the C2 witness. -/
def c2_handle : String → String → String → IngestFileReport :=
  fun fn _ _ => { source_filename := fn, status := "success" }

/-- Outcome of sugar.find_vehicle_id for one VIN as the sync loop observes
it: either the call raises (transport, auth, raise_for_status), or it
returns Python's Optional id — records[0].get("id") can itself be None or
empty, both falsy. -/
inductive LookupOutcome where
  | raises (message : String)
  | value (vehicle_id : Option String)
deriving DecidableEq, Repr

/-- Outcome of sugar.update_vehicle for one entry: returns, or raises with
a message (str(exc)). -/
inductive ApplyOutcome where
  | applied
  | raises (message : String)
deriving DecidableEq, Repr

/-- The CRM as execute_sync_pipeline's loop sees it. -/
structure CrmOracle where
  lookup : String → LookupOutcome
  update : String → VehicleRecord → ApplyOutcome

/-- One element of the `failures` list built by execute_sync_pipeline. -/
structure SyncFailure where
  vin : String
  error : String
  file_name : String
deriving DecidableEq, Repr

/-- The not-found message of src/app/main.py line 167. -/
def not_found_message : String := "Vehicle not found in SugarCRM"

/-- `entry.source_filename or "unknown"`. -/
def file_name_of (e : StagedEntry) : String := e.source_filename.getD "unknown"

/-- One iteration of the sync loop body (src/app/main.py lines 162-189):
look the VIN up; a falsy vehicle_id means record_error with the not-found
message and a failure item; a raise out of lookup or update_vehicle is
caught by the per-entry except, which calls record_error with the
exception text and appends a failure item; otherwise mark_pushed and count
a success.  Returns the new store, whether the entry was a success, and
the failure item if any. -/
def sync_entry_step (crm : CrmOracle) (store : List StagedRow) (e : StagedEntry) :
    List StagedRow × Bool × Option SyncFailure :=
  match crm.lookup e.record.vin with
  | LookupOutcome.raises m =>
    (record_error store e.stage_id m, false,
      some { vin := e.record.vin, error := m, file_name := file_name_of e })
  | LookupOutcome.value none =>
    (record_error store e.stage_id not_found_message, false,
      some { vin := e.record.vin, error := not_found_message,
             file_name := file_name_of e })
  | LookupOutcome.value (some vid) =>
    if vid = "" then
      (record_error store e.stage_id not_found_message, false,
        some { vin := e.record.vin, error := not_found_message,
               file_name := file_name_of e })
    else
      match crm.update vid e.record with
      | ApplyOutcome.raises m =>
        (record_error store e.stage_id m, false,
          some { vin := e.record.vin, error := m, file_name := file_name_of e })
      | ApplyOutcome.applied => (mark_pushed store e.stage_id, true, none)

/-- How one entry will fare, read off the oracle alone: the message it
fails with, or none when it succeeds. -/
def entry_failure (crm : CrmOracle) (e : StagedEntry) : Option String :=
  match crm.lookup e.record.vin with
  | LookupOutcome.raises m => some m
  | LookupOutcome.value none => some not_found_message
  | LookupOutcome.value (some vid) =>
    if vid = "" then some not_found_message
    else
      match crm.update vid e.record with
      | ApplyOutcome.raises m => some m
      | ApplyOutcome.applied => none

/-- The for-statement of execute_sync_pipeline, threading the store, the
success counter and the failures list. -/
def sync_loop (crm : CrmOracle) :
    List StagedEntry → List StagedRow → Nat → List SyncFailure →
      List StagedRow × Nat × List SyncFailure
  | [], store, successes, failures => (store, successes, failures)
  | e :: rest, store, successes, failures =>
    let step := sync_entry_step crm store e
    sync_loop crm rest step.1
      (if step.2.1 then successes + 1 else successes)
      (failures ++ step.2.2.toList)

/-- Insertion sort on strings, standing for Python's sorted(). -/
def insert_sorted (x : String) : List String → List String
  | [] => [x]
  | y :: rest => if x ≤ y then x :: y :: rest else y :: insert_sorted x rest

/-- Sorted list of strings. -/
def sort_strings : List String → List String
  | [] => []
  | x :: rest => insert_sorted x (sort_strings rest)

/-- `sorted(set(item["file_name"] for item in failures))`. -/
def sorted_file_names (failures : List SyncFailure) : List String :=
  sort_strings ((failures.map (fun f => f.file_name)).eraseDups)

/-- The summary dictionary of execute_sync_pipeline. -/
structure SyncSummary where
  records_processed : Nat
  successful_updates : Nat
  failed_updates : Nat
  file_names : List String
  status : String
deriving DecidableEq, Repr

/-- Result of one sync invocation: the summary it returns, the store it
leaves behind, and the failures list it hands the notifier. -/
structure SyncRun where
  summary : SyncSummary
  store : List StagedRow
  failures : List SyncFailure
deriving DecidableEq, Repr

/-- execute_sync_pipeline (src/app/main.py lines 122-204) after setup:
entries are the pending rows fetched; with no entries it returns the empty
success summary without touching the store; otherwise it runs the loop and
classifies the cycle. -/
def execute_sync_pipeline (crm : CrmOracle) (entries : List StagedEntry)
    (store : List StagedRow) : SyncRun :=
  if entries.isEmpty then
    { summary := { records_processed := 0, successful_updates := 0,
                   failed_updates := 0, file_names := [], status := "success" },
      store := store, failures := [] }
  else
    let res := sync_loop crm entries store 0 []
    { summary := { records_processed := entries.length,
                   successful_updates := res.2.1,
                   failed_updates := res.2.2.length,
                   file_names := if res.2.2.isEmpty then [] else sorted_file_names res.2.2,
                   status := if res.2.2.isEmpty then "success" else "partial" },
      store := res.1, failures := res.2.2 }

/-- The net effect of one entry's iteration on the store. -/
def entry_mutation (crm : CrmOracle) (e : StagedEntry) (store : List StagedRow) :
    List StagedRow :=
  match entry_failure crm e with
  | some m => record_error store e.stage_id m
  | none => mark_pushed store e.stage_id

/-- The failure item one entry contributes, if any. -/
def entry_failure_item (crm : CrmOracle) (e : StagedEntry) : Option SyncFailure :=
  (entry_failure crm e).map
    (fun m => { vin := e.record.vin, error := m, file_name := file_name_of e })

/-- Concrete record for the C4 witness scenario. -/
def c4_record (vin : String) : VehicleRecord :=
  { make := "TOYOTA", model := "COROLLA", vin := vin,
    dereg_date := "2024-01-02", rego := "PLT01" }

/-- Concrete staged entry for the C4 witness scenario. -/
def c4_entry (sid vin : String) : StagedEntry :=
  { stage_id := sid, record := c4_record vin, source_filename := some "vins.csv" }

/-- The three-entry batch of the specification's scenario. -/
def c4_entries : List StagedEntry :=
  [c4_entry "sid-aaa" "AAA", c4_entry "sid-bbb" "BBB", c4_entry "sid-ccc" "CCC"]

/-- Concrete pending row for the C4 witness scenario. -/
def c4_row (sid vin : String) : StagedRow :=
  { id := sid, vin := vin, vehicle_make := "TOYOTA", vehicle_model := "COROLLA",
    dereg_date := "2024-01-02", reg_plate := "PLT01", status := "pending",
    source_filename := "vins.csv", error_message := none }

/-- The staged table of the specification's scenario. -/
def c4_store : List StagedRow :=
  [c4_row "sid-aaa" "AAA", c4_row "sid-bbb" "BBB", c4_row "sid-ccc" "CCC"]

/-- CRM oracle of the specification's scenario: AAA is absent, BBB's
update raises a transport error, CCC applies cleanly. -/
def c4_crm : CrmOracle :=
  { lookup := fun vin =>
      if vin = "AAA" then LookupOutcome.value none
      else if vin = "BBB" then LookupOutcome.value (some "id-bbb")
      else LookupOutcome.value (some "id-ccc"),
    update := fun vid _ =>
      if vid = "id-bbb" then ApplyOutcome.raises "transport error"
      else ApplyOutcome.applied }

/-- Lifecycle location of a file's durable copy (raw/processed/error
blob name segment, src/app/storage_writer.py). -/
inductive FileLoc where
  | raw
  | processed
  | error
deriving DecidableEq, Repr

/-- Observable operations of _ingest_single_file, in execution order:
the raw upload, each FTP delete attempt (with its outcome), the CSV load,
stage_records, and the blob moves / bulk fail. -/
inductive IngestEvent where
  | upload_raw
  | ftp_delete (attempt : Nat) (ok : Bool)
  | decode_file
  | stage_rows
  | move_processed
  | move_error
  | mark_failed_file
deriving DecidableEq, Repr

/-- Oracle for one file's ingestion (src/app/main.py _ingest_single_file):
the FTP name, the blob-derived source_filename used for staging, the
outcome of each fallible external step, and the uuid4 stream assigned by
stage_records.  The raw upload itself is assumed done (its failure happens
before the try blocks and simply propagates).  A decode error stands for
HeaderValidationError with its message; a stage error for the RuntimeError
of a failed insert (no rows inserted, staged stays False). -/
structure IngestEnv where
  filename : String
  source_filename : String
  delete1_ok : Bool
  delete2_ok : Bool
  decode : Except String (List VehicleRecord)
  stage_result : Except String Unit
  move_processed_result : Except String Unit
  move_error_result : Except String Unit
  stage_id_at : Nat → String

/-- Rows inserted by stage_records for the decoded records: fresh id,
status "pending", no error_message, provenance source_filename. -/
def staged_rows (env : IngestEnv) (records : List VehicleRecord) : List StagedRow :=
  ((List.range records.length).zip records).map (fun p =>
    { id := env.stage_id_at p.1, vin := p.2.vin, vehicle_make := p.2.make,
      vehicle_model := p.2.model, dereg_date := p.2.dereg_date,
      reg_plate := p.2.rego, status := "pending",
      source_filename := env.source_filename, error_message := none })

/-- The f-string "Failed to ingest \x7bfilename\x7d: \x7bexc\x7d". -/
def ingest_failure_message (filename exc : String) : String :=
  "Failed to ingest " ++ filename ++ ": " ++ exc

/-- The success summary of one ingested file. -/
structure IngestReport where
  file_name : String
  staged_records : Nat
  status : String
deriving DecidableEq, Repr

/-- What one run of _ingest_single_file leaves behind: the ordered event
trace, where the durable copy ended up, the staging table, and the
returned summary or the re-raised exception. -/
structure IngestOutcome where
  trace : List IngestEvent
  file_loc : FileLoc
  store : List StagedRow
  result : Except String IngestReport
deriving Repr

/-- The except-branch of _ingest_single_file (src/app/main.py lines
270-277) followed by its finally clause: move the current (still raw)
copy to the error location, then — only if rows were staged — bulk-fail
the file's pending rows, then re-raise; if the error move itself raises,
the bulk fail is skipped, the copy stays raw and the move's exception
propagates instead.  The finally clause re-attempts the FTP delete
exactly when the first attempt failed. -/
def ingest_escape (env : IngestEnv) (store1 : List StagedRow) (staged : Bool)
    (events : List IngestEvent) (exc : String) : IngestOutcome :=
  let final_del : List IngestEvent :=
    if env.delete1_ok then [] else [IngestEvent.ftp_delete 2 env.delete2_ok]
  match env.move_error_result with
  | Except.ok _ =>
    { trace := events ++ [IngestEvent.move_error] ++
        (if staged then [IngestEvent.mark_failed_file] else []) ++ final_del,
      file_loc := FileLoc.error,
      store :=
        if staged then
          mark_failed_by_file store1 env.source_filename
            (ingest_failure_message env.filename exc)
        else store1,
      result := Except.error exc }
  | Except.error m2 =>
    { trace := events ++ [IngestEvent.move_error] ++ final_del,
      file_loc := FileLoc.raw, store := store1, result := Except.error m2 }

/-- _ingest_single_file (src/app/main.py lines 220-284): upload raw, then
the first best-effort FTP delete, then load the CSV (a header failure is
notified and re-raised), stage the records, move the copy to processed
and return the success summary; any exception takes the escape path; the
finally clause re-attempts the FTP delete iff the first attempt failed. -/
def ingest_file (env : IngestEnv) (store : List StagedRow) : IngestOutcome :=
  let pre := [IngestEvent.upload_raw, IngestEvent.ftp_delete 1 env.delete1_ok]
  let final_del : List IngestEvent :=
    if env.delete1_ok then [] else [IngestEvent.ftp_delete 2 env.delete2_ok]
  match env.decode with
  | Except.error m =>
    ingest_escape env store false (pre ++ [IngestEvent.decode_file]) m
  | Except.ok records =>
    match env.stage_result with
    | Except.error m =>
      ingest_escape env store false
        (pre ++ [IngestEvent.decode_file, IngestEvent.stage_rows]) m
    | Except.ok _ =>
      let store1 := store ++ staged_rows env records
      let staged := decide (records ≠ [])
      match env.move_processed_result with
      | Except.ok _ =>
        { trace := pre ++ [IngestEvent.decode_file, IngestEvent.stage_rows,
            IngestEvent.move_processed] ++ final_del,
          file_loc := FileLoc.processed, store := store1,
          result := Except.ok
            { file_name := env.source_filename,
              staged_records := records.length, status := "success" } }
      | Except.error m =>
        ingest_escape env store1 staged
          (pre ++ [IngestEvent.decode_file, IngestEvent.stage_rows,
            IngestEvent.move_processed]) m

/-- Whether an event is an FTP delete attempt. -/
def is_delete_event : IngestEvent → Bool
  | IngestEvent.ftp_delete _ _ => true
  | _ => false

/-- Environment for the C5 witness: one staged record, relocation to
processed raising, error move succeeding. -/
def c5_env : IngestEnv :=
  { filename := "vins.csv", source_filename := "20240101-vins.csv",
    delete1_ok := true, delete2_ok := true,
    decode := Except.ok [c4_record "AAA"],
    stage_result := Except.ok (),
    move_processed_result := Except.error "rename failed",
    move_error_result := Except.ok (),
    stage_id_at := fun i => "sid-" ++ toString i }

/-- Environment for the C9 witness: the first FTP delete fails, everything
else succeeds. -/
def c9_env : IngestEnv :=
  { filename := "vins.csv", source_filename := "20240101-vins.csv",
    delete1_ok := false, delete2_ok := true,
    decode := Except.ok [c4_record "AAA"],
    stage_result := Except.ok (),
    move_processed_result := Except.ok (),
    move_error_result := Except.ok (),
    stage_id_at := fun i => "sid-" ++ toString i }

theorem update_status_length (store : List StagedRow) (sid st : String)
    (err : Option String) : (update_status store sid st err).length = store.length := by
  simp [update_status]

theorem mark_failed_by_file_length (store : List StagedRow) (fn m : String) :
    (mark_failed_by_file store fn m).length = store.length := by
  simp [mark_failed_by_file]

theorem update_status_getElem? (store : List StagedRow) (sid st : String)
    (err : Option String) (i : Nat) :
    (update_status store sid st err)[i]? =
      (store[i]?).map (update_status_row sid st err) := by
  simp [update_status, List.getElem?_map]

theorem mark_failed_by_file_getElem? (store : List StagedRow) (fn m : String) (i : Nat) :
    (mark_failed_by_file store fn m)[i]? =
      (store[i]?).map (mark_failed_by_file_row fn m) := by
  simp [mark_failed_by_file, List.getElem?_map]

/-- Claim C1 (corrected): `mark_failed_by_file` indeed touches only rows of
the named file that are currently "pending"; but `mark_pushed` and
`record_error` rewrite every row whose id matches the given stage_id
regardless of its current status (their WHERE clause has no status
condition), and leave every other row unchanged. -/
theorem C1_status_update_surfaces (store : List StagedRow)
    (fn m sid msg : String) (i : Nat) (r : StagedRow)
    (hr : store[i]? = some r) :
    (r.status ≠ "pending" → (mark_failed_by_file store fn m)[i]? = some r) ∧
    (r.source_filename ≠ fn → (mark_failed_by_file store fn m)[i]? = some r) ∧
    (r.id ≠ sid → (mark_pushed store sid)[i]? = some r ∧
      (record_error store sid msg)[i]? = some r) ∧
    (r.id = sid → (mark_pushed store sid)[i]? =
        some { r with status := "pushed", error_message := none } ∧
      (record_error store sid msg)[i]? =
        some { r with status := "failed", error_message := some msg }) := by
  refine ⟨?_, ?_, ?_, ?_⟩
  · intro hst
    rw [mark_failed_by_file_getElem?, hr]
    simp [mark_failed_by_file_row, hst]
  · intro hfn
    rw [mark_failed_by_file_getElem?, hr]
    simp [mark_failed_by_file_row, hfn]
  · intro hid
    constructor
    · rw [mark_pushed, update_status_getElem?, hr]
      simp [update_status_row, hid]
    · rw [record_error, update_status_getElem?, hr]
      simp [update_status_row, hid]
  · intro hid
    constructor
    · rw [mark_pushed, update_status_getElem?, hr]
      simp [update_status_row, hid]
    · rw [record_error, update_status_getElem?, hr]
      simp [update_status_row, hid]

/-- Claim C1 counterexample: `record_error` does change a row that is already
"pushed" — with a single pushed row in the table, record_error on its
stage_id rewrites it to "failed" with the new error message. -/
theorem C1_pushed_row_rewritten :
    c1_pushed_row.status = "pushed" ∧
    record_error [c1_pushed_row] "stage-1" "boom" =
      [{ c1_pushed_row with status := "failed", error_message := some "boom" }] := by
  constructor
  · rfl
  · simp [record_error, update_status, update_status_row, c1_pushed_row]

/-- Claim C1 witness: the amended statement instantiated on a concrete
two-row table. -/
theorem C1_status_update_surfaces_witness :
    (mark_failed_by_file [c1_pushed_row] "vins.csv" "late failure")[0]? =
      some c1_pushed_row := by
  have h := C1_status_update_surfaces [c1_pushed_row]
    "vins.csv" "late failure" "other-id" "m" 0 c1_pushed_row (by rfl)
  exact h.1 (by decide)

theorem run_update_aux_success (backend : Nat → QueryAttempt) (a s : Nat)
    (h : backend a = .success) : run_update_aux backend a s = .applied a s := by
  rw [run_update_aux.eq_def, h]

theorem run_update_aux_other (backend : Nat → QueryAttempt) (a s : Nat) (m : String)
    (h : backend a = .other_error m) :
    run_update_aux backend a s = .raised_other m s := by
  rw [run_update_aux.eq_def, h]

theorem run_update_aux_step (backend : Nat → QueryAttempt) (a s : Nat) (m : String)
    (h : backend a = .bad_request m) (hc : is_streaming_conflict m = true)
    (ha : a < STREAMING_BUFFER_RETRIES) :
    run_update_aux backend a s =
      run_update_aux backend (a + 1) (s + STREAMING_BUFFER_DELAY_SECONDS) := by
  rw [run_update_aux.eq_def, h]
  simp [hc, ha]

theorem run_update_aux_give_up (backend : Nat → QueryAttempt) (a s : Nat) (m : String)
    (h : backend a = .bad_request m)
    (hstop : is_streaming_conflict m = false ∨ ¬ a < STREAMING_BUFFER_RETRIES) :
    run_update_aux backend a s = .raised_bad_request m s := by
  rw [run_update_aux.eq_def, h]
  rcases hstop with hc | ha
  · simp [hc]
  · simp [ha]

theorem run_update_reach (backend : Nat → QueryAttempt) (k : Nat)
    (hk : k ≤ STREAMING_BUFFER_RETRIES)
    (hconf : ∀ j, j < k → conflict_attempt (backend j)) :
    run_update_query backend =
      run_update_aux backend k (STREAMING_BUFFER_DELAY_SECONDS * k) := by
  induction k with
  | zero => simp [run_update_query]
  | succ n ih =>
    have hn : n ≤ STREAMING_BUFFER_RETRIES := Nat.le_of_succ_le hk
    have h := ih hn (fun j hj => hconf j (Nat.lt_succ_of_lt hj))
    obtain ⟨m, hm, hcm⟩ := hconf n (Nat.lt_succ_self n)
    rw [h, run_update_aux_step backend n _ m hm hcm (by omega)]
    ring_nf

theorem run_update_aux_applied (backend : Nat → QueryAttempt) :
    ∀ fuel attempts slept a s,
      STREAMING_BUFFER_RETRIES - attempts ≤ fuel →
      run_update_aux backend attempts slept = .applied a s →
      backend a = .success := by
  intro fuel
  induction fuel with
  | zero =>
    intro attempts slept a s hf hres
    cases hbk : backend attempts
    · rw [run_update_aux_success backend _ _ hbk] at hres
      simp at hres
      rw [← hres.1]
      exact hbk
    · rename_i m
      rw [run_update_aux_give_up backend _ _ m hbk (Or.inr (by omega))] at hres
      simp at hres
    · rename_i m
      rw [run_update_aux_other backend _ _ m hbk] at hres
      simp at hres
  | succ n ih =>
    intro attempts slept a s hf hres
    cases hbk : backend attempts
    · rw [run_update_aux_success backend _ _ hbk] at hres
      simp at hres
      rw [← hres.1]
      exact hbk
    · rename_i m
      by_cases hc : is_streaming_conflict m = true
      · by_cases ha : attempts < STREAMING_BUFFER_RETRIES
        · rw [run_update_aux_step backend _ _ m hbk hc ha] at hres
          exact ih (attempts + 1) _ a s (by omega) hres
        · rw [run_update_aux_give_up backend _ _ m hbk (Or.inr ha)] at hres
          simp at hres
      · rw [run_update_aux_give_up backend _ _ m hbk
          (Or.inl (by simpa using hc))] at hres
        simp at hres
    · rename_i m
      rw [run_update_aux_other backend _ _ m hbk] at hres
      simp at hres

/-- Claim C3: _run_update_query retries a point mutation blocked by the
streaming buffer after a fixed 15-second delay, up to 12 retries; it
returns as soon as an attempt succeeds, only reports success when the
underlying update actually applied, re-raises the conflict BadRequest once
the budget is exhausted, and re-raises any non-conflict error immediately
with no further attempts. -/
theorem C3_conflict_retry (backend : Nat → QueryAttempt) (k : Nat)
    (hk : k ≤ STREAMING_BUFFER_RETRIES)
    (hconf : ∀ j, j < k → conflict_attempt (backend j)) :
    (backend k = .success →
      run_update_query backend =
        .applied k (STREAMING_BUFFER_DELAY_SECONDS * k)) ∧
    (∀ m, backend k = .other_error m →
      run_update_query backend =
        .raised_other m (STREAMING_BUFFER_DELAY_SECONDS * k)) ∧
    (∀ m, backend k = .bad_request m → is_streaming_conflict m = false →
      run_update_query backend =
        .raised_bad_request m (STREAMING_BUFFER_DELAY_SECONDS * k)) ∧
    (∀ m, k = STREAMING_BUFFER_RETRIES → backend k = .bad_request m →
      run_update_query backend =
        .raised_bad_request m
          (STREAMING_BUFFER_DELAY_SECONDS * STREAMING_BUFFER_RETRIES)) ∧
    (∀ a s, run_update_query backend = .applied a s → backend a = .success) := by
  have hreach := run_update_reach backend k hk hconf
  refine ⟨?_, ?_, ?_, ?_, ?_⟩
  · intro h
    rw [hreach, run_update_aux_success backend _ _ h]
  · intro m h
    rw [hreach, run_update_aux_other backend _ _ m h]
  · intro m h hc
    rw [hreach, run_update_aux_give_up backend _ _ m h (Or.inl hc)]
  · intro m hk12 h
    subst hk12
    rw [hreach, run_update_aux_give_up backend _ _ m h (Or.inr (by omega))]
  · intro a s h
    exact run_update_aux_applied backend STREAMING_BUFFER_RETRIES 0 0 a s (by omega) h

/-- Claim C3 witness: a backend that reports a streaming-buffer conflict on
the first attempt and succeeds on the second; the mutation applies on
attempt 1 after one 15-second sleep. -/
theorem C3_conflict_retry_witness :
    run_update_query c3_backend =
      UpdateOutcome.applied 1 (STREAMING_BUFFER_DELAY_SECONDS * 1) := by
  refine (C3_conflict_retry c3_backend 1 (by decide) ?_).1 (by decide)
  intro j hj
  have hj0 : j = 0 := by omega
  subst hj0
  exact ⟨"row in streaming buffer", by decide, by decide⟩

/-- Claim C6: a request through _request re-authenticates and retries
exactly once on a 401 — a non-401 first response is returned untouched
with no re-authentication; a 401 first response triggers one authenticate
and one resend; if the resend is again a 401, raise_for_status at the call
site turns it into a hard error while still only one re-authentication and
two sends ever happened. -/
theorem C6_token_refresh_bound (first after_reauth : HttpResponse) :
    (first.status_code ≠ 401 →
      crm_request first after_reauth =
        { response := first, requests_sent := 1, reauth_count := 0 }) ∧
    (first.status_code = 401 →
      crm_request first after_reauth =
        { response := after_reauth, requests_sent := 2, reauth_count := 1 }) ∧
    (first.status_code = 401 → after_reauth.status_code = 401 →
      raise_for_status (crm_request first after_reauth).response =
          Except.error 401 ∧
        (crm_request first after_reauth).reauth_count = 1 ∧
        (crm_request first after_reauth).requests_sent = 2) := by
  refine ⟨?_, ?_, ?_⟩
  · intro h
    simp [crm_request, h]
  · intro h
    simp [crm_request, h]
  · intro h1 h2
    simp [crm_request, raise_for_status, h1, h2]

/-- Claim C6 witness: both sends come back 401; the caller sees a hard
HTTPError after exactly one re-authentication. -/
theorem C6_token_refresh_bound_witness :
    raise_for_status (crm_request ⟨401⟩ ⟨401⟩).response = Except.error 401 ∧
      (crm_request ⟨401⟩ ⟨401⟩).reauth_count = 1 ∧
      (crm_request ⟨401⟩ ⟨401⟩).requests_sent = 2 :=
  (C6_token_refresh_bound ⟨401⟩ ⟨401⟩).2.2 rfl rfl

/-- Claim C8: update_vehicle succeeds exactly when the transport-level
successful response echoes the intended vehicle status and deregistration
date; an echo that differs in either field makes it raise, so the sync
step records the record as a failure, never a success. -/
theorem C8_update_verification (record : VehicleRecord) (resp : UpdateResponse)
    (actual_status actual_date : Option String)
    (htrans : resp.status_code < 400)
    (hbody : resp.body = some (actual_status, actual_date)) :
    update_vehicle record resp = Except.ok () ↔
      (actual_status = some target_status ∧
        actual_date = format_date record.dereg_date) := by
  unfold update_vehicle
  rw [if_neg (by omega), hbody]
  by_cases hcond : actual_status = some target_status ∧
      actual_date = format_date record.dereg_date
  · simp [hcond]
  · simp [hcond]

/-- Claim C8 witness: a 200 response echoing the written values makes
update_vehicle succeed. -/
theorem C8_update_verification_witness :
    update_vehicle c8_record c8_response = Except.ok () :=
  (C8_update_verification c8_record c8_response
    (some "Deregistered") (some "2024-01-02") (by decide) rfl).mpr (by decide)

/-- Claim C10: ensure_resources is idempotent — after one call both
resources exist; a second call issues no create operation and leaves the
state unchanged; a create is only ever issued for a resource that was
absent, and no single call creates the same resource twice. -/
theorem C10_ensure_resources_idempotent (s : BqState) :
    (ensure_resources (ensure_resources s).1).2 = [] ∧
    (ensure_resources (ensure_resources s).1).1 = (ensure_resources s).1 ∧
    (ensure_resources s).1 = { dataset_exists := true, table_exists := true } ∧
    (s.dataset_exists = true → BqOp.create_dataset ∉ (ensure_resources s).2) ∧
    (s.table_exists = true → BqOp.create_table ∉ (ensure_resources s).2) ∧
    (ensure_resources s).2.count BqOp.create_dataset ≤ 1 ∧
    (ensure_resources s).2.count BqOp.create_table ≤ 1 := by
  obtain ⟨ds, ts⟩ := s
  cases ds <;> cases ts <;> decide

/-- Claim C10 witness: with the dataset already present and the table
absent, no duplicate dataset creation is issued. -/
theorem C10_ensure_resources_idempotent_witness :
    BqOp.create_dataset ∉ (ensure_resources ⟨true, false⟩).2 :=
  (C10_ensure_resources_idempotent ⟨true, false⟩).2.2.2.1 rfl

/-- Claim C2: iter_downloads yields only 2-tuples while the ingest loop
header unpacks 3 names, so as soon as the listing is non-empty the loop
raises the ValueError on the first item — no file is processed and the
pipeline propagates the exception, which the entrypoint converts into a
status-"error" summary with HTTP 200. -/
theorem C2_tuple_unpack_mismatch (handle : String → String → String → IngestFileReport)
    (files : List String) (destination_dir : String) (h : files ≠ []) :
    (∀ item ∈ iter_downloads files destination_dir, item.length = 2) ∧
    execute_ingest_pipeline handle files destination_dir =
      Except.error unpack_value_error ∧
    entrypoint_post (execute_ingest_pipeline handle files destination_dir) =
      { body := TriggerBody.error_summary "error" unpack_value_error,
        http_code := 200 } := by
  refine ⟨?_, ?_, ?_⟩
  · intro item hitem
    obtain ⟨fn, hfn, rfl⟩ := List.mem_map.mp hitem
    rfl
  · cases files with
    | nil => exact absurd rfl h
    | cons f rest => rfl
  · cases files with
    | nil => exact absurd rfl h
    | cons f rest => rfl

/-- Claim C2 witness: a listing with one matching file. -/
theorem C2_tuple_unpack_mismatch_witness :
    execute_ingest_pipeline c2_handle ["vins-20240101.csv"] "/tmp/work" =
      Except.error unpack_value_error :=
  (C2_tuple_unpack_mismatch c2_handle ["vins-20240101.csv"] "/tmp/work"
    (List.cons_ne_nil _ _)).2.1

/-- Claim C7: whatever the selected pipeline does, the POST entrypoint
answers HTTP 200 — a raised exception is converted into the structured
error body rather than propagated, and a returned summary is passed
through. -/
theorem C7_trigger_containment {α : Type} (pipeline_result : Except String α) :
    (entrypoint_post pipeline_result).http_code = 200 ∧
    (∀ e, pipeline_result = Except.error e →
      (entrypoint_post pipeline_result).body =
        TriggerBody.error_summary "error" e) ∧
    (∀ s, pipeline_result = Except.ok s →
      (entrypoint_post pipeline_result).body = TriggerBody.summary s) := by
  cases pipeline_result <;> simp [entrypoint_post]

/-- Claim C7 witness: a pipeline failure with a concrete message becomes
the structured error summary. -/
theorem C7_trigger_containment_witness :
    (entrypoint_post (Except.error "BigQuery unavailable" : Except String Nat)).body =
      TriggerBody.error_summary "error" "BigQuery unavailable" :=
  (C7_trigger_containment (Except.error "BigQuery unavailable" : Except String Nat)).2.1
    "BigQuery unavailable" rfl

theorem find_row_map (store : List StagedRow) (f : StagedRow → StagedRow)
    (hf : ∀ r, (f r).id = r.id) (i : String) :
    find_row (store.map f) i = (find_row store i).map f := by
  induction store with
  | nil => rfl
  | cons a l ih =>
    simp only [find_row, List.map_cons, List.find?_cons] at *
    have hfa : ((f a).id == i) = (a.id == i) := by rw [hf]
    rw [hfa]
    cases hpa : (a.id == i)
    · simpa using ih
    · rfl

theorem update_status_row_id (sid st : String) (err : Option String) (r : StagedRow) :
    (update_status_row sid st err r).id = r.id := by
  unfold update_status_row
  split <;> rfl

theorem find_row_id (store : List StagedRow) (i : String) (r : StagedRow)
    (h : find_row store i = some r) : r.id = i := by
  have := List.find?_some h
  simpa using this

theorem find_row_update_status (store : List StagedRow) (sid st : String)
    (err : Option String) (i : String) :
    find_row (update_status store sid st err) i =
      (find_row store i).map (update_status_row sid st err) :=
  find_row_map store _ (update_status_row_id sid st err) i

theorem find_row_update_status_ne (store : List StagedRow) (sid st : String)
    (err : Option String) (i : String) (h : i ≠ sid) :
    find_row (update_status store sid st err) i = find_row store i := by
  rw [find_row_update_status]
  cases hfr : find_row store i with
  | none => rfl
  | some r =>
    have hid : r.id = i := find_row_id store i r hfr
    simp [update_status_row, hid, h]

theorem find_row_update_status_self (store : List StagedRow) (sid st : String)
    (err : Option String) :
    find_row (update_status store sid st err) sid =
      (find_row store sid).map
        (fun r => { r with status := st, error_message := err }) := by
  rw [find_row_update_status]
  cases hfr : find_row store sid with
  | none => rfl
  | some r =>
    have hid : r.id = sid := find_row_id store sid r hfr
    simp [update_status_row, hid]

theorem sync_entry_step_some (crm : CrmOracle) (store : List StagedRow)
    (e : StagedEntry) (m : String) (hm : entry_failure crm e = some m) :
    sync_entry_step crm store e =
      (record_error store e.stage_id m, false,
        some { vin := e.record.vin, error := m, file_name := file_name_of e }) := by
  unfold sync_entry_step
  unfold entry_failure at hm
  cases hl : crm.lookup e.record.vin <;> rw [hl] at hm
  · simp at hm
    rw [hm]
  · rename_i v
    cases v with
    | none =>
      simp at hm
      rw [hm]
    | some vid =>
      by_cases hv : vid = ""
      · simp [hv] at hm ⊢
        simp [hm]
      · simp only [if_neg hv] at hm ⊢
        cases hu : crm.update vid e.record <;> rw [hu] at hm <;> simp_all

theorem sync_entry_step_none (crm : CrmOracle) (store : List StagedRow)
    (e : StagedEntry) (hm : entry_failure crm e = none) :
    sync_entry_step crm store e = (mark_pushed store e.stage_id, true, none) := by
  unfold sync_entry_step
  unfold entry_failure at hm
  cases hl : crm.lookup e.record.vin <;> rw [hl] at hm
  · simp at hm
  · rename_i v
    cases v with
    | none => simp at hm
    | some vid =>
      by_cases hv : vid = ""
      · simp [hv] at hm
      · simp only [if_neg hv] at hm ⊢
        cases hu : crm.update vid e.record <;> rw [hu] at hm <;> simp_all

theorem find_row_entry_mutation_ne (crm : CrmOracle) (e : StagedEntry)
    (store : List StagedRow) (i : String) (h : i ≠ e.stage_id) :
    find_row (entry_mutation crm e store) i = find_row store i := by
  unfold entry_mutation
  cases entry_failure crm e with
  | some m => exact find_row_update_status_ne store _ _ _ i h
  | none => exact find_row_update_status_ne store _ _ _ i h

theorem sync_loop_store (crm : CrmOracle) (entries : List StagedEntry) :
    ∀ (store : List StagedRow) (s : Nat) (f : List SyncFailure),
      (sync_loop crm entries store s f).1 =
        entries.foldl (fun st e => entry_mutation crm e st) store := by
  induction entries with
  | nil => intro store s f; rfl
  | cons e rest ih =>
    intro store s f
    cases hm : entry_failure crm e with
    | some m =>
      rw [sync_loop, sync_entry_step_some crm store e m hm]
      show (sync_loop crm rest (record_error store e.stage_id m) s
          (f ++ [{ vin := e.record.vin, error := m, file_name := file_name_of e }])).1 = _
      rw [ih, List.foldl_cons]
      simp [entry_mutation, hm]
    | none =>
      rw [sync_loop, sync_entry_step_none crm store e hm]
      show (sync_loop crm rest (mark_pushed store e.stage_id) (s + 1) (f ++ [])).1 = _
      rw [List.append_nil, ih, List.foldl_cons]
      simp [entry_mutation, hm]

theorem sync_loop_counts (crm : CrmOracle) (entries : List StagedEntry) :
    ∀ (store : List StagedRow) (s : Nat) (f : List SyncFailure),
      (sync_loop crm entries store s f).2.1 =
        s + entries.countP (fun e => (entry_failure crm e).isNone) ∧
      (sync_loop crm entries store s f).2.2 =
        f ++ entries.filterMap (fun e => entry_failure_item crm e) := by
  induction entries with
  | nil => intro store s f; simp [sync_loop]
  | cons e rest ih =>
    intro store s f
    cases hm : entry_failure crm e with
    | some m =>
      rw [sync_loop, sync_entry_step_some crm store e m hm]
      have hitem : entry_failure_item crm e =
          some { vin := e.record.vin, error := m, file_name := file_name_of e } := by
        simp [entry_failure_item, hm]
      have h := ih (record_error store e.stage_id m) s
        (f ++ [{ vin := e.record.vin, error := m, file_name := file_name_of e }])
      constructor
      · show (sync_loop crm rest (record_error store e.stage_id m) s
            (f ++ [{ vin := e.record.vin, error := m, file_name := file_name_of e }])).2.1 = _
        rw [h.1, List.countP_cons]
        simp [hm]
      · show (sync_loop crm rest (record_error store e.stage_id m) s
            (f ++ [{ vin := e.record.vin, error := m, file_name := file_name_of e }])).2.2 = _
        rw [h.2, List.filterMap_cons, hitem, List.append_assoc]
        rfl
    | none =>
      rw [sync_loop, sync_entry_step_none crm store e hm]
      have hitem : entry_failure_item crm e = none := by
        simp [entry_failure_item, hm]
      have h := ih (mark_pushed store e.stage_id) (s + 1) f
      constructor
      · show (sync_loop crm rest (mark_pushed store e.stage_id) (s + 1) (f ++ [])).2.1 = _
        rw [List.append_nil, h.1, List.countP_cons]
        simp [hm]
        omega
      · show (sync_loop crm rest (mark_pushed store e.stage_id) (s + 1) (f ++ [])).2.2 = _
        rw [List.append_nil, h.2, List.filterMap_cons, hitem]

theorem filterMap_failure_length (crm : CrmOracle) (entries : List StagedEntry) :
    entries.countP (fun e => (entry_failure crm e).isNone) +
      (entries.filterMap (fun e => entry_failure_item crm e)).length =
      entries.length := by
  induction entries with
  | nil => rfl
  | cons e rest ih =>
    cases hm : entry_failure crm e with
    | some m =>
      have hitem : entry_failure_item crm e =
          some { vin := e.record.vin, error := m, file_name := file_name_of e } := by
        simp [entry_failure_item, hm]
      rw [List.countP_cons, List.filterMap_cons, hitem]
      simp [hm]
      omega
    | none =>
      have hitem : entry_failure_item crm e = none := by
        simp [entry_failure_item, hm]
      rw [List.countP_cons, List.filterMap_cons, hitem]
      simp [hm]
      omega

theorem find_row_fold_ne (crm : CrmOracle) (entries : List StagedEntry) :
    ∀ (store : List StagedRow) (i : String),
      (∀ e ∈ entries, e.stage_id ≠ i) →
      find_row (entries.foldl (fun st e => entry_mutation crm e st) store) i =
        find_row store i := by
  induction entries with
  | nil => intro store i _; rfl
  | cons e rest ih =>
    intro store i h
    rw [List.foldl_cons, ih _ i (fun e' he' => h e' (List.mem_cons_of_mem e he')),
      find_row_entry_mutation_ne crm e store i
        (fun hc => h e (List.mem_cons_self e rest) hc.symm)]

/-- Final row state an entry is driven to. -/
theorem find_row_fold_mem (crm : CrmOracle) (entries : List StagedEntry) :
    ∀ (store : List StagedRow),
      ((entries.map (fun e => e.stage_id)).Nodup) →
      ∀ e ∈ entries,
        find_row (entries.foldl (fun st e => entry_mutation crm e st) store)
            e.stage_id =
          (find_row store e.stage_id).map
            (fun r =>
              match entry_failure crm e with
              | some m => { r with status := "failed", error_message := some m }
              | none => { r with status := "pushed", error_message := none }) := by
  induction entries with
  | nil => intro store _ e he; exact absurd he (List.not_mem_nil e)
  | cons a rest ih =>
    intro store hnodup e he
    rw [List.map_cons, List.nodup_cons] at hnodup
    rcases List.mem_cons.mp he with rfl | hmem
    · rw [List.foldl_cons,
        find_row_fold_ne crm rest (entry_mutation crm e store) e.stage_id
          (fun e' he' hc => hnodup.1 (hc ▸ List.mem_map_of_mem (fun x => x.stage_id) he'))]
      unfold entry_mutation
      cases hm : entry_failure crm e with
      | some m => exact find_row_update_status_self store _ _ _
      | none => exact find_row_update_status_self store _ _ _
    · have hne : e.stage_id ≠ a.stage_id := by
        intro hc
        exact hnodup.1 (hc ▸ List.mem_map_of_mem (fun x => x.stage_id) hmem)
      rw [List.foldl_cons, ih (entry_mutation crm a store) hnodup.2 e hmem,
        find_row_entry_mutation_ne crm a store e.stage_id hne]

/-- Claim C4: over any batch of entries with distinct stage ids the sync
pipeline counts every entry exactly once (successes + failures =
processed), reports status "success" exactly when no entry failed, builds
the failures list from precisely the entries whose lookup was absent/falsy
(not-found message), whose lookup raised, or whose update raised (with the
exception's text), and drives each entry's row to failed with that message
or to pushed — one entry's failure never stops the rest of the batch from
being processed. -/
theorem C4_sync_postcondition (crm : CrmOracle) (entries : List StagedEntry)
    (store : List StagedRow)
    (hnodup : (entries.map (fun e => e.stage_id)).Nodup) :
    (execute_sync_pipeline crm entries store).summary.records_processed =
        entries.length ∧
    (execute_sync_pipeline crm entries store).summary.successful_updates +
        (execute_sync_pipeline crm entries store).summary.failed_updates =
        entries.length ∧
    (execute_sync_pipeline crm entries store).summary.successful_updates =
        entries.countP (fun e => (entry_failure crm e).isNone) ∧
    (execute_sync_pipeline crm entries store).failures =
        entries.filterMap (fun e => entry_failure_item crm e) ∧
    (execute_sync_pipeline crm entries store).summary.failed_updates =
        (execute_sync_pipeline crm entries store).failures.length ∧
    (execute_sync_pipeline crm entries store).summary.status =
        (if (execute_sync_pipeline crm entries store).failures.isEmpty
          then "success" else "partial") ∧
    (∀ e ∈ entries,
      find_row (execute_sync_pipeline crm entries store).store e.stage_id =
        (find_row store e.stage_id).map
          (fun r =>
            match entry_failure crm e with
            | some m => { r with status := "failed", error_message := some m }
            | none => { r with status := "pushed", error_message := none })) := by
  cases entries with
  | nil =>
    refine ⟨rfl, rfl, rfl, rfl, rfl, rfl, ?_⟩
    intro e he
    exact absurd he (List.not_mem_nil e)
  | cons a rest =>
    have hloop := sync_loop_counts crm (a :: rest) store 0 []
    have hstore := sync_loop_store crm (a :: rest) store 0 []
    refine ⟨rfl, ?_, ?_, ?_, rfl, rfl, ?_⟩
    · show (sync_loop crm (a :: rest) store 0 []).2.1 +
        (sync_loop crm (a :: rest) store 0 []).2.2.length = (a :: rest).length
      rw [hloop.1, hloop.2, List.nil_append, Nat.zero_add]
      exact filterMap_failure_length crm (a :: rest)
    · show (sync_loop crm (a :: rest) store 0 []).2.1 = _
      rw [hloop.1, Nat.zero_add]
    · show (sync_loop crm (a :: rest) store 0 []).2.2 = _
      rw [hloop.2, List.nil_append]
    · intro e he
      show find_row (sync_loop crm (a :: rest) store 0 []).1 e.stage_id = _
      rw [hstore]
      exact find_row_fold_mem crm (a :: rest) store hnodup e he

/-- Claim C4 witness: the specification's three-VIN scenario — AAA absent
in the CRM, BBB's update raising a transport error, CCC applying — yields
successes 1, failures AAA/BBB with their messages, status "partial", and
the store rows failed, failed, pushed. -/
theorem C4_sync_postcondition_witness :
    (execute_sync_pipeline c4_crm c4_entries c4_store).failures =
      [{ vin := "AAA", error := not_found_message, file_name := "vins.csv" },
       { vin := "BBB", error := "transport error", file_name := "vins.csv" }] ∧
    (execute_sync_pipeline c4_crm c4_entries c4_store).summary.successful_updates = 1 ∧
    find_row (execute_sync_pipeline c4_crm c4_entries c4_store).store "sid-ccc" =
      some { (c4_row "sid-ccc" "CCC") with status := "pushed", error_message := none } ∧
    find_row (execute_sync_pipeline c4_crm c4_entries c4_store).store "sid-aaa" =
      some { (c4_row "sid-aaa" "AAA") with status := "failed", error_message := some not_found_message } := by
  have h := C4_sync_postcondition c4_crm c4_entries c4_store (by decide)
  refine ⟨?_, ?_, ?_, ?_⟩
  · rw [h.2.2.2.1]
    decide
  · rw [h.2.2.1]
    decide
  · have hc := h.2.2.2.2.2.2 (c4_entry "sid-ccc" "CCC") (by decide)
    rw [show (c4_entry "sid-ccc" "CCC").stage_id = "sid-ccc" from rfl] at hc
    rw [hc]
    decide
  · have ha := h.2.2.2.2.2.2 (c4_entry "sid-aaa" "AAA") (by decide)
    rw [show (c4_entry "sid-aaa" "AAA").stage_id = "sid-aaa" from rfl] at ha
    rw [ha]
    decide

/-- Claim C5: with the error move succeeding, every escape after the raw
upload (header-validation failure, staging failure, relocation failure)
lands the file's durable copy in the error location and re-raises; a
header or staging failure leaves the staging table exactly as it was
(zero rows staged for the file); a relocation failure after a non-empty
staging bulk-fails the file's rows — pointwise, every row of the table
that was pending for that source filename ends failed with the message
naming the file. -/
theorem C5_escape_cleanup (env : IngestEnv) (store : List StagedRow)
    (herr : env.move_error_result = Except.ok ()) :
    (∀ m, env.decode = Except.error m →
      (ingest_file env store).file_loc = FileLoc.error ∧
      (ingest_file env store).store = store ∧
      (ingest_file env store).result = Except.error m) ∧
    (∀ records m, env.decode = Except.ok records →
      env.stage_result = Except.error m →
      (ingest_file env store).file_loc = FileLoc.error ∧
      (ingest_file env store).store = store ∧
      (ingest_file env store).result = Except.error m) ∧
    (∀ records m, env.decode = Except.ok records → records ≠ [] →
      env.stage_result = Except.ok () →
      env.move_processed_result = Except.error m →
      (ingest_file env store).file_loc = FileLoc.error ∧
      (ingest_file env store).store =
        mark_failed_by_file (store ++ staged_rows env records)
          env.source_filename (ingest_failure_message env.filename m) ∧
      (ingest_file env store).result = Except.error m ∧
      (∀ (i : Nat) (r : StagedRow),
        (store ++ staged_rows env records)[i]? = some r →
        r.source_filename = env.source_filename → r.status = "pending" →
        (ingest_file env store).store[i]? =
          some { r with status := "failed", error_message := some (ingest_failure_message env.filename m) })) := by
  refine ⟨?_, ?_, ?_⟩
  · intro m hdec
    refine ⟨?_, ?_, ?_⟩ <;> simp [ingest_file, ingest_escape, hdec, herr]
  · intro records m hdec hs
    refine ⟨?_, ?_, ?_⟩ <;> simp [ingest_file, ingest_escape, hdec, hs, herr]
  · intro records m hdec hne hs hmv
    have hstore : (ingest_file env store).store =
        mark_failed_by_file (store ++ staged_rows env records)
          env.source_filename (ingest_failure_message env.filename m) := by
      simp [ingest_file, ingest_escape, hdec, hs, hmv, herr, hne]
    refine ⟨?_, hstore, ?_, ?_⟩
    · simp [ingest_file, ingest_escape, hdec, hs, hmv, herr]
    · simp [ingest_file, ingest_escape, hdec, hs, hmv, herr]
    · intro i r hr hsrc hst
      rw [hstore, mark_failed_by_file_getElem?, hr]
      simp [mark_failed_by_file_row, hsrc, hst]

/-- Claim C5 witness: relocation to processed raises after one record was
staged into an empty table; the file lands in the error location and the
staged pending row is bulk-failed with the message naming the file. -/
theorem C5_escape_cleanup_witness :
    (ingest_file c5_env []).file_loc = FileLoc.error ∧
    (ingest_file c5_env []).store =
      mark_failed_by_file ([] ++ staged_rows c5_env [c4_record "AAA"])
        c5_env.source_filename
        (ingest_failure_message c5_env.filename "rename failed") := by
  have h := (C5_escape_cleanup c5_env [] rfl).2.2 [c4_record "AAA"]
    "rename failed" rfl (by decide) rfl rfl
  exact ⟨h.1, h.2.1⟩

theorem countP_delete_mark (c : Bool) :
    List.countP is_delete_event
      (if c = true then [IngestEvent.mark_failed_file] else []) = 0 := by
  cases c <;> rfl

theorem getLast?_cons_append_single :
    ∀ (l : List IngestEvent) (a b : IngestEvent),
      (a :: (l ++ [b])).getLast? = some b := by
  intro l
  induction l with
  | nil => intro a b; rfl
  | cons c l ih =>
    intro a b
    rw [List.cons_append, List.getLast?_cons_cons]
    exact ih c b

/-- Claim C9: the first FTP delete attempt happens immediately after the
raw upload, before decode and staging (it is the second event of every
trace); when it succeeds it is the only delete attempt of the whole run;
when it fails, exactly one more attempt is made, it is the very last
event of the run, and this holds whatever the downstream decode, staging,
relocation or error-move outcomes are. -/
theorem C9_delete_ordering (env : IngestEnv) (store : List StagedRow) :
    (ingest_file env store).trace.take 2 =
      [IngestEvent.upload_raw, IngestEvent.ftp_delete 1 env.delete1_ok] ∧
    (env.delete1_ok = true →
      (ingest_file env store).trace.countP is_delete_event = 1) ∧
    (env.delete1_ok = false →
      (ingest_file env store).trace.countP is_delete_event = 2 ∧
      (ingest_file env store).trace.getLast? =
        some (IngestEvent.ftp_delete 2 env.delete2_ok)) := by
  refine ⟨?_, ?_, ?_⟩
  · cases hd : env.decode with
    | error m =>
      cases he : env.move_error_result <;>
        simp [ingest_file, ingest_escape, hd, he]
    | ok records =>
      cases hs : env.stage_result with
      | error m =>
        cases he : env.move_error_result <;>
          simp [ingest_file, ingest_escape, hd, hs, he]
      | ok u =>
        cases hm : env.move_processed_result with
        | ok u2 => simp [ingest_file, ingest_escape, hd, hs, hm]
        | error m =>
          cases he : env.move_error_result <;>
            simp [ingest_file, ingest_escape, hd, hs, hm, he]
  · intro h1
    cases hd : env.decode with
    | error m =>
      cases he : env.move_error_result <;>
        simp [ingest_file, ingest_escape, hd, he, h1, is_delete_event,
          countP_delete_mark, List.countP_cons, List.countP_append]
    | ok records =>
      cases hs : env.stage_result with
      | error m =>
        cases he : env.move_error_result <;>
          simp [ingest_file, ingest_escape, hd, hs, he, h1, is_delete_event,
            countP_delete_mark, List.countP_cons, List.countP_append]
      | ok u =>
        cases hm : env.move_processed_result with
        | ok u2 =>
          simp [ingest_file, ingest_escape, hd, hs, hm, h1, is_delete_event,
            countP_delete_mark, List.countP_cons, List.countP_append]
        | error m =>
          cases he : env.move_error_result <;>
            simp [ingest_file, ingest_escape, hd, hs, hm, he, h1,
              is_delete_event, countP_delete_mark, List.countP_cons,
              List.countP_append]
  · intro h1
    cases hd : env.decode with
    | error m =>
      cases he : env.move_error_result <;>
        simp [ingest_file, ingest_escape, hd, he, h1, is_delete_event,
          countP_delete_mark, List.countP_cons, List.countP_append,
          getLast?_cons_append_single]
    | ok records =>
      cases hs : env.stage_result with
      | error m =>
        cases he : env.move_error_result <;>
          simp [ingest_file, ingest_escape, hd, hs, he, h1, is_delete_event,
            countP_delete_mark, List.countP_cons, List.countP_append,
            getLast?_cons_append_single]
      | ok u =>
        cases hm : env.move_processed_result with
        | ok u2 =>
          simp [ingest_file, ingest_escape, hd, hs, hm, h1, is_delete_event,
            countP_delete_mark, List.countP_cons, List.countP_append,
            getLast?_cons_append_single]
        | error m =>
          cases he : env.move_error_result <;>
            simp [ingest_file, ingest_escape, hd, hs, hm, he, h1,
              is_delete_event, countP_delete_mark, List.countP_cons,
              List.countP_append, getLast?_cons_append_single]

/-- Claim C9 witness: the first delete fails on an otherwise clean run;
there are exactly two delete attempts and the final event is the retried
delete. -/
theorem C9_delete_ordering_witness :
    (ingest_file c9_env []).trace.countP is_delete_event = 2 ∧
    (ingest_file c9_env []).trace.getLast? =
      some (IngestEvent.ftp_delete 2 true) :=
  (C9_delete_ordering c9_env []).2.2 rfl

end VinPipeline
